import Mathlib

/- Verification development for bound.c (ImageGPSBound).

   bound.c copies those images of a source directory whose EXIF GPS
   position falls inside a caller-supplied bounding rectangle into a
   destination directory.

   Modelling conventions:
   * C floating-point values are modelled by the type DVal: an exact
     rational number, a signed infinity, or NaN, with the IEEE
     special-value rules for the operations bound.c performs.
     Rounding of finite values is abstracted away: finite arithmetic
     is exact.
   * The external EXIF decoder (createIfdTableArray / getTagInfo of
     exif.h) is modelled by an environment mapping every file path to
     an optional table holding the results of the four GPS tag
     lookups bound.c performs.
   * Directory contents are modelled by a listing of directory
     entries (dirent structs: d_name and d_type).  The side effects
     of boundDir on each match (the cp call and the copied-file
     progress line) are modelled by returning the list of copied
     file names, so the number of progress reports is the length of
     that list.
   * err(msg), which prints a diagnostic and calls exit(1), is
     modelled by the RunResult.fatal constructor; normal termination
     with exit code 0 is RunResult.ok.  -/

/-- Model of a C double: an exact rational number (rounding is
abstracted away), a signed infinity, or NaN. -/
inductive DVal where
  | fin (q : ℚ)
  | posInf
  | negInf
  | nan
  deriving DecidableEq

/-- IEEE-style addition on extended rationals. -/
def DVal.add : DVal → DVal → DVal
  | DVal.nan, _ => DVal.nan
  | _, DVal.nan => DVal.nan
  | DVal.fin a, DVal.fin b => DVal.fin (a + b)
  | DVal.fin _, DVal.posInf => DVal.posInf
  | DVal.fin _, DVal.negInf => DVal.negInf
  | DVal.posInf, DVal.fin _ => DVal.posInf
  | DVal.negInf, DVal.fin _ => DVal.negInf
  | DVal.posInf, DVal.posInf => DVal.posInf
  | DVal.negInf, DVal.negInf => DVal.negInf
  | DVal.posInf, DVal.negInf => DVal.nan
  | DVal.negInf, DVal.posInf => DVal.nan

/-- IEEE-style multiplication on extended rationals. -/
def DVal.mul : DVal → DVal → DVal
  | DVal.nan, _ => DVal.nan
  | _, DVal.nan => DVal.nan
  | DVal.fin a, DVal.fin b => DVal.fin (a * b)
  | DVal.fin a, DVal.posInf =>
      if a = 0 then DVal.nan else if 0 < a then DVal.posInf else DVal.negInf
  | DVal.fin a, DVal.negInf =>
      if a = 0 then DVal.nan else if 0 < a then DVal.negInf else DVal.posInf
  | DVal.posInf, DVal.fin b =>
      if b = 0 then DVal.nan else if 0 < b then DVal.posInf else DVal.negInf
  | DVal.negInf, DVal.fin b =>
      if b = 0 then DVal.nan else if 0 < b then DVal.negInf else DVal.posInf
  | DVal.posInf, DVal.posInf => DVal.posInf
  | DVal.posInf, DVal.negInf => DVal.negInf
  | DVal.negInf, DVal.posInf => DVal.negInf
  | DVal.negInf, DVal.negInf => DVal.posInf

/-- IEEE-style division on extended rationals: a nonzero finite value
divided by zero is a signed infinity, 0/0 is NaN. -/
def DVal.div : DVal → DVal → DVal
  | DVal.nan, _ => DVal.nan
  | _, DVal.nan => DVal.nan
  | DVal.fin a, DVal.fin b =>
      if b = 0 then (if a = 0 then DVal.nan else if 0 < a then DVal.posInf else DVal.negInf)
      else DVal.fin (a / b)
  | DVal.fin _, DVal.posInf => DVal.fin 0
  | DVal.fin _, DVal.negInf => DVal.fin 0
  | DVal.posInf, DVal.fin b => if 0 ≤ b then DVal.posInf else DVal.negInf
  | DVal.negInf, DVal.fin b => if 0 ≤ b then DVal.negInf else DVal.posInf
  | DVal.posInf, DVal.posInf => DVal.nan
  | DVal.posInf, DVal.negInf => DVal.nan
  | DVal.negInf, DVal.posInf => DVal.nan
  | DVal.negInf, DVal.negInf => DVal.nan

/-- Negation on extended rationals. -/
def DVal.neg : DVal → DVal
  | DVal.fin a => DVal.fin (-a)
  | DVal.posInf => DVal.negInf
  | DVal.negInf => DVal.posInf
  | DVal.nan => DVal.nan

/-- IEEE-style comparison a <= b: false whenever NaN is involved. -/
def DVal.le : DVal → DVal → Bool
  | DVal.nan, _ => false
  | _, DVal.nan => false
  | DVal.fin a, DVal.fin b => decide (a ≤ b)
  | DVal.fin _, DVal.posInf => true
  | DVal.fin _, DVal.negInf => false
  | DVal.posInf, DVal.fin _ => false
  | DVal.negInf, DVal.fin _ => true
  | DVal.posInf, DVal.posInf => true
  | DVal.negInf, DVal.negInf => true
  | DVal.posInf, DVal.negInf => false
  | DVal.negInf, DVal.posInf => true

/-- IEEE-style comparison a >= b: false whenever NaN is involved. -/
def DVal.ge (a b : DVal) : Bool := DVal.le b a

/-- A DVal is finite when it is an actual rational (not infinite, not NaN). -/
def DVal.isFinite : DVal → Bool
  | DVal.fin _ => true
  | _ => false

/-- Model of the TagNodeInfo struct of exif.h as used by bound.c: an
error flag, the numeric rational data array (numData, read at indices
0..5 by convertDMS), and the byte data array (byteData, read at index
0 for the hemisphere character). -/
structure TagNodeInfo where
  error : Bool
  numData : Nat → ℤ
  byteData : Nat → Char

/-- Model of the IFD table returned by createIfdTableArray, restricted
to the four getTagInfo lookups bound.c performs (IFD_GPS with tags
GPSLatitude, GPSLongitude, GPSLatitudeRef, GPSLongitudeRef).  A field
holding none models getTagInfo returning NULL (tag absent). -/
structure IfdTable where
  gpsLat : Option TagNodeInfo
  gpsLon : Option TagNodeInfo
  gpsLatRef : Option TagNodeInfo
  gpsLonRef : Option TagNodeInfo

/-- Model of the external EXIF decoder: maps a file path to the IFD
table createIfdTableArray would produce, or none when decoding fails
entirely (createIfdTableArray returns NULL). -/
def ExifEnv : Type := String → Option IfdTable

/-- The EXIFCoord struct of bound.c: latitude, longitude, and the
error flag (set when the EXIF read failed). -/
structure EXIFCoord where
  lat : DVal
  lon : DVal
  error : Bool

/-- convertDMS of bound.c: takes the six rational components
(degree, minute, second numerator/denominator pairs) and a direction
character, and produces decimal degrees, negated unless the direction
is N or E. -/
def convertDMS (DMSArray : Nat → ℤ) (direction : Char) : DVal :=
  let minutes : DVal := DVal.div (DVal.fin 1) (DVal.fin 60)
  let seconds : DVal := DVal.div (DVal.fin 1) (DVal.fin 3600)
  let degrees0 : DVal := DVal.div (DVal.fin (DMSArray 0 : ℚ)) (DVal.fin (DMSArray 1 : ℚ))
  let degrees1 : DVal :=
    DVal.add degrees0
      (DVal.mul (DVal.div (DVal.fin (DMSArray 2 : ℚ)) (DVal.fin (DMSArray 3 : ℚ))) minutes)
  let degrees2 : DVal :=
    DVal.add degrees1
      (DVal.mul (DVal.div (DVal.fin (DMSArray 4 : ℚ)) (DVal.fin (DMSArray 5 : ℚ))) seconds)
  DVal.mul degrees2
    (if direction = 'N' ∨ direction = 'E' then DVal.fin 1 else DVal.fin (-1))

/-- The check bound.c performs on each getTagInfo result:
`!tag || tag->error` (tag absent, or present with its error flag set). -/
def tagFailed : Option TagNodeInfo → Bool
  | none => true
  | some tag => tag.error

/-- getEXIFCoord of bound.c: queries the decoder for the IFD table of
the path, looks up the four GPS tags, and returns the default
(error = true) coordinate if decoding failed or any lookup failed;
otherwise converts both axes and clears the error flag. -/
def getEXIFCoord (env : ExifEnv) (path : String) : EXIFCoord :=
  let coord : EXIFCoord := { lat := DVal.fin 0, lon := DVal.fin 0, error := true }
  match env path with
  | none => coord
  | some ifdArray =>
    match ifdArray.gpsLat with
    | none => coord
    | some lat =>
      if lat.error then coord else
      match ifdArray.gpsLon with
      | none => coord
      | some lon =>
        if lon.error then coord else
        match ifdArray.gpsLatRef with
        | none => coord
        | some latDir =>
          if latDir.error then coord else
          match ifdArray.gpsLonRef with
          | none => coord
          | some lonDir =>
            if lonDir.error then coord else
            { lat := convertDMS lat.numData (latDir.byteData 0)
              lon := convertDMS lon.numData (lonDir.byteData 0)
              error := false }

/-- Number of convertDMS invocations getEXIFCoord performs for a path:
the two conversion calls are reached only after the decode and the
four tag checks all succeed; every early return performs none. -/
def convertDMSCallCount (env : ExifEnv) (path : String) : Nat :=
  match env path with
  | none => 0
  | some ifdArray =>
    if tagFailed ifdArray.gpsLat then 0
    else if tagFailed ifdArray.gpsLon then 0
    else if tagFailed ifdArray.gpsLatRef then 0
    else if tagFailed ifdArray.gpsLonRef then 0
    else 2

/-- fileInBounds of bound.c: extracts the GPS coordinate of the file
and tests it against the bounding rectangle, inclusively on all four
edges; returns false immediately when extraction failed. -/
def fileInBounds (env : ExifEnv) (path : String)
    (latTL lonTL latBR lonBR : DVal) : Bool :=
  let imageGPS := getEXIFCoord env path
  if imageGPS.error then false
  else if DVal.le imageGPS.lat latTL && DVal.ge imageGPS.lon lonTL
      && DVal.ge imageGPS.lat latBR && DVal.le imageGPS.lon lonBR then true
  else false

/-- The d_type value of a regular file (DT_REG on Linux). -/
def DT_REG : Nat := 8

/-- Model of a dirent struct as read by boundDir: entry name and type. -/
structure DirEnt where
  d_name : String
  d_type : Nat

/-- boundDir of bound.c over an explicit directory listing: skips
entries that are not regular files, tests each regular file with
fileInBounds on the path srcPath/d_name, and for each match copies the
file and prints a progress line.  The returned list holds the names of
the copied files in enumeration order, modelling those side effects;
its length is the number of files reported copied. -/
def boundDir (env : ExifEnv) (listing : List DirEnt) (srcPath destPath : String)
    (latTL lonTL latBR lonBR : DVal) : List String :=
  match listing with
  | [] => []
  | fileEnt :: rest =>
    if fileEnt.d_type ≠ DT_REG then
      boundDir env rest srcPath destPath latTL lonTL latBR lonBR
    else
      let fileName := srcPath ++ "/" ++ fileEnt.d_name
      if fileInBounds env fileName latTL lonTL latBR lonBR then
        fileEnt.d_name :: boundDir env rest srcPath destPath latTL lonTL latBR lonBR
      else
        boundDir env rest srcPath destPath latTL lonTL latBR lonBR

/-- Outcome of a run of the program: fatal models err(msg), which
prints the diagnostic and exits with code 1; ok models exit code 0
after boundDir ran, carrying the copied-file reports. -/
inductive RunResult where
  | fatal (msg : String)
  | ok (copied : List String)
  deriving DecidableEq

/-- Diagnostic of err when argc < 2. -/
def msgNoSrc : String := "no source path provided"

/-- Diagnostic of err when the source path fails the stat check. -/
def msgSrcInvalid : String := "provided source path was invalid"

/-- Diagnostic of err when argc < 3. -/
def msgNoDest : String := "no destination path provided"

/-- Diagnostic of err when the destination path fails the stat check. -/
def msgDestInvalid : String := "provided destination path was invalid"

/-- Diagnostic of err when argc < 7. -/
def msgMissingCoords : String := "some bounding coords are missing"

/-- Diagnostic of err when strtod rejects a parameter. -/
def msgBadFloat : String := "invalid floating point parameter"

/-- Diagnostic of err when a latitude parameter is out of range. -/
def msgLatRange : String := "latitude parameter out of range"

/-- Diagnostic of err when a longitude parameter is out of range. -/
def msgLonRange : String := "longitude parameter out of range"

/-- Diagnostic of err when the rectangle is degenerate. -/
def msgDeformed : String := "deformed bounding rectangle defined"

/-- The system facilities main interacts with: the EXIF decoder, the
directory listing of a path, the stat-based directory test, and
strtod (none models a parse failure: leftover characters or ERANGE). -/
structure SysEnv where
  exif : ExifEnv
  dirListing : String → List DirEnt
  isDir : String → Bool
  parseDouble : String → Option ℚ

/-- One iteration of the parameter loop of main for index i in 3..6:
parse argv[i] with strtod, then range-check it (odd indices are
latitudes in [-90, 90], even indices longitudes in [-180, 180]). -/
def parseParam (parseDouble : String → Option ℚ) (argv : List String) (i : Nat) :
    Except String ℚ :=
  match parseDouble (argv.getD i "") with
  | none => Except.error msgBadFloat
  | some param =>
    if i % 2 = 1 ∧ (param < -90 ∨ param > 90) then Except.error msgLatRange
    else if i % 2 = 0 ∧ (param < -180 ∨ param > 180) then Except.error msgLonRange
    else Except.ok param

/-- main of bound.c: validates the argument count, the source and
destination directories (which must exist, be directories, and not
end in a slash), parses and range-checks the four bounding
parameters, rejects a degenerate rectangle, and only then runs
boundDir.  (Named mainRun because Lean reserves the name main for
entry points.) -/
def mainRun (env : SysEnv) (argv : List String) : RunResult :=
  if argv.length < 2 then RunResult.fatal msgNoSrc else
  let srcPath := argv.getD 1 ""
  if ¬ (env.isDir srcPath = true ∧ srcPath.back ≠ '/') then RunResult.fatal msgSrcInvalid else
  if argv.length < 3 then RunResult.fatal msgNoDest else
  let destPath := argv.getD 2 ""
  if ¬ (env.isDir destPath = true ∧ destPath.back ≠ '/') then RunResult.fatal msgDestInvalid else
  if argv.length < 7 then RunResult.fatal msgMissingCoords else
  match parseParam env.parseDouble argv 3 with
  | Except.error m => RunResult.fatal m
  | Except.ok latTL =>
  match parseParam env.parseDouble argv 4 with
  | Except.error m => RunResult.fatal m
  | Except.ok lonTL =>
  match parseParam env.parseDouble argv 5 with
  | Except.error m => RunResult.fatal m
  | Except.ok latBR =>
  match parseParam env.parseDouble argv 6 with
  | Except.error m => RunResult.fatal m
  | Except.ok lonBR =>
  if latTL ≤ latBR ∨ lonTL ≥ lonBR then RunResult.fatal msgDeformed else
  RunResult.ok (boundDir env.exif (env.dirListing srcPath) srcPath destPath
    (DVal.fin latTL) (DVal.fin lonTL) (DVal.fin latBR) (DVal.fin lonBR))

/-- Builds the numData array of a GPS tag from its six rational
components, as convertDMS reads it (indices 0..5). -/
def mkDMS (n0 d0 n1 d1 n2 d2 : ℤ) : Nat → ℤ :=
  fun i => [n0, d0, n1, d1, n2, d2].getD i 0

/-- A concrete file path used to instantiate theorems. -/
def samplePath : String := "photos/beach.jpg"

/-- A concrete IFD table with all four GPS tags present and
well-formed: latitude 10 N, longitude 20 E. -/
def sampleIfd : IfdTable where
  gpsLat := some { error := false, numData := mkDMS 10 1 0 1 0 1, byteData := fun _ => 'N' }
  gpsLon := some { error := false, numData := mkDMS 20 1 0 1 0 1, byteData := fun _ => 'E' }
  gpsLatRef := some { error := false, numData := mkDMS 0 1 0 1 0 1, byteData := fun _ => 'N' }
  gpsLonRef := some { error := false, numData := mkDMS 0 1 0 1 0 1, byteData := fun _ => 'E' }

/-- A decoder environment in which every path decodes to sampleIfd. -/
def sampleEnv : ExifEnv := fun _ => some sampleIfd

/-- A decoder environment in which every decode fails (no EXIF data). -/
def noExifEnv : ExifEnv := fun _ => none

/-- A concrete IFD table whose latitude tag holds 1000 degrees north:
well-formed as far as bound.c checks, yet far outside [-90, 90]. -/
def outOfRangeIfd : IfdTable where
  gpsLat := some { error := false, numData := mkDMS 1000 1 0 1 0 1, byteData := fun _ => 'N' }
  gpsLon := some { error := false, numData := mkDMS 20 1 0 1 0 1, byteData := fun _ => 'E' }
  gpsLatRef := some { error := false, numData := mkDMS 0 1 0 1 0 1, byteData := fun _ => 'N' }
  gpsLonRef := some { error := false, numData := mkDMS 0 1 0 1 0 1, byteData := fun _ => 'E' }

/-- A decoder environment in which every path decodes to outOfRangeIfd. -/
def outOfRangeEnv : ExifEnv := fun _ => some outOfRangeIfd

/-- A concrete argument vector for the CLI model, the degenerate
rectangle of end-to-end scenario 3: bound srcdir destdir 10 10 20 5. -/
def argProg : String := "bound"

/-- Concrete source directory argument. -/
def argSrc : String := "srcdir"

/-- Concrete destination directory argument. -/
def argDest : String := "destdir"

/-- Concrete numeric argument 10. -/
def argTen : String := "10"

/-- Concrete numeric argument 20. -/
def argTwenty : String := "20"

/-- Concrete numeric argument 5. -/
def argFive : String := "5"

/-- The argv of scenario 3: rectangle (10, 10, 20, 5). -/
def sampleArgv : List String := [argProg, argSrc, argDest, argTen, argTen, argTwenty, argFive]

/-- A concrete strtod model accepting exactly the numeric arguments of
sampleArgv. -/
def sampleParse : String → Option ℚ := fun s =>
  if s = argTen then some 10
  else if s = argTwenty then some 20
  else if s = argFive then some 5
  else none

/-- Multiplying any extended rational by the finite value 1 on the
right is the identity, matching IEEE semantics. -/
theorem DVal.mul_fin_one (v : DVal) : DVal.mul v (DVal.fin 1) = v := by
  cases v <;> simp [DVal.mul]

/-- Multiplying any extended rational by the finite value -1 on the
right negates it, matching IEEE semantics. -/
theorem DVal.mul_fin_negOne (v : DVal) : DVal.mul v (DVal.fin (-1)) = DVal.neg v := by
  cases v <;> simp [DVal.mul, DVal.neg]

/-- Every run of getEXIFCoord either returns the default coordinate
(zero axes, error flag set) unchanged, or succeeds with the error
flag cleared. -/
theorem getEXIFCoord_default_or_valid (env : ExifEnv) (path : String) :
    getEXIFCoord env path = { lat := DVal.fin 0, lon := DVal.fin 0, error := true } ∨
      (getEXIFCoord env path).error = false := by
  unfold getEXIFCoord
  repeat' split
  all_goals first | exact Or.inl rfl | exact Or.inr rfl

/-- C9: the Converter performs no guard on zero denominators: on the
sextuple 1/0 degrees, 0/1 minutes, 0/1 seconds (degree denominator
zero) convertDMS still returns a value, and that value is the
non-finite positive infinity. -/
theorem convertDMS_zero_denominator :
    mkDMS 1 0 0 1 0 1 1 = 0 ∧
    convertDMS (mkDMS 1 0 0 1 0 1) 'N' = DVal.posInf ∧
    DVal.isFinite (convertDMS (mkDMS 1 0 0 1 0 1) 'N') = false := by
  refine ⟨rfl, ?_, ?_⟩ <;>
    norm_num [convertDMS, mkDMS, DVal.div, DVal.add, DVal.mul, DVal.isFinite]

/-- C3: convertDMS on the rational sextuple [d,1,0,1,0,1] with
hemisphere N returns exactly d, and in general (for nonzero
denominators) computes num0/den0 + (num1/den1)/60 + (num2/den2)/3600
exactly. -/
theorem convertDMS_decimal_degrees (n0 d0 n1 d1 n2 d2 : ℤ)
    (h0 : d0 ≠ 0) (h1 : d1 ≠ 0) (h2 : d2 ≠ 0) :
    convertDMS (mkDMS n0 d0 n1 d1 n2 d2) 'N' =
      DVal.fin ((n0 : ℚ) / (d0 : ℚ) + ((n1 : ℚ) / (d1 : ℚ)) / 60 + ((n2 : ℚ) / (d2 : ℚ)) / 3600) ∧
    ∀ d : ℤ, convertDMS (mkDMS d 1 0 1 0 1) 'N' = DVal.fin (d : ℚ) := by
  constructor
  · have h0' : (d0 : ℚ) ≠ 0 := Int.cast_ne_zero.mpr h0
    have h1' : (d1 : ℚ) ≠ 0 := Int.cast_ne_zero.mpr h1
    have h2' : (d2 : ℚ) ≠ 0 := Int.cast_ne_zero.mpr h2
    norm_num [convertDMS, mkDMS, DVal.div, DVal.add, DVal.mul, h0', h1', h2']
    ring
  · intro d
    norm_num [convertDMS, mkDMS, DVal.div, DVal.add, DVal.mul]

/-- C3 witness: 30 degrees 30 minutes north converts to 30.5 = 61/2. -/
theorem convertDMS_decimal_degrees_witness :
    convertDMS (mkDMS 30 1 30 1 0 1) 'N' =
      DVal.fin ((30 : ℚ) / ((1 : ℤ) : ℚ) + (((30 : ℤ) : ℚ) / ((1 : ℤ) : ℚ)) / 60
        + (((0 : ℤ) : ℚ) / ((1 : ℤ) : ℚ)) / 3600) :=
  (convertDMS_decimal_degrees 30 1 30 1 0 1 (by decide) (by decide) (by decide)).1

/-- C4: for every rational sextuple and hemisphere character,
convertDMS returns the unsigned DMS magnitude (the value computed
for hemisphere N) unchanged when the character is N or E, and its
negation for every other character. -/
theorem convertDMS_hemisphere_sign (DMSArray : Nat → ℤ) (direction : Char) :
    convertDMS DMSArray direction =
      if direction = 'N' ∨ direction = 'E' then convertDMS DMSArray 'N'
      else DVal.neg (convertDMS DMSArray 'N') := by
  by_cases h : direction = 'N' ∨ direction = 'E' <;>
    simp [convertDMS, h, DVal.mul_fin_one, DVal.mul_fin_negOne]

/-- C6: fileInBounds returns false whenever the extracted coordinate
carries the error flag, for every bounding rectangle. -/
theorem fileInBounds_invalid_coord (env : ExifEnv) (path : String)
    (latTL lonTL latBR lonBR : DVal)
    (h : (getEXIFCoord env path).error = true) :
    fileInBounds env path latTL lonTL latBR lonBR = false := by
  simp [fileInBounds, h]

/-- C6 witness: a file with no EXIF data is excluded even by the
whole-world rectangle. -/
theorem fileInBounds_invalid_coord_witness :
    fileInBounds noExifEnv samplePath
      (DVal.fin 90) (DVal.fin (-180)) (DVal.fin (-90)) (DVal.fin 180) = false :=
  fileInBounds_invalid_coord noExifEnv samplePath
    (DVal.fin 90) (DVal.fin (-180)) (DVal.fin (-90)) (DVal.fin 180) rfl

/-- C10: whenever getEXIFCoord fails, the returned coordinate carries
exactly the default-initialized axes lat = 0 and lon = 0 alongside the
error flag: no partially converted axis value is ever exposed. -/
theorem getEXIFCoord_failure_default (env : ExifEnv) (path : String)
    (h : (getEXIFCoord env path).error = true) :
    (getEXIFCoord env path).lat = DVal.fin 0 ∧ (getEXIFCoord env path).lon = DVal.fin 0 := by
  rcases getEXIFCoord_default_or_valid env path with heq | hvalid
  · rw [heq]
    exact ⟨rfl, rfl⟩
  · rw [hvalid] at h
    cases h

/-- C10 witness: the failed extraction on a file with no EXIF data
returns the zero axes. -/
theorem getEXIFCoord_failure_default_witness :
    (getEXIFCoord noExifEnv samplePath).lat = DVal.fin 0 ∧
      (getEXIFCoord noExifEnv samplePath).lon = DVal.fin 0 :=
  getEXIFCoord_failure_default noExifEnv samplePath rfl

/-- C5: for a successfully extracted finite coordinate (la, lo) and a
finite rectangle, fileInBounds returns true exactly when all four
inclusive edge comparisons hold: la <= latTL, lo >= lonTL,
la >= latBR, lo <= lonBR. -/
theorem fileInBounds_inclusive_iff (env : ExifEnv) (path : String)
    (la lo latTL lonTL latBR lonBR : ℚ)
    (herr : (getEXIFCoord env path).error = false)
    (hla : (getEXIFCoord env path).lat = DVal.fin la)
    (hlo : (getEXIFCoord env path).lon = DVal.fin lo) :
    (fileInBounds env path (DVal.fin latTL) (DVal.fin lonTL) (DVal.fin latBR) (DVal.fin lonBR)
        = true
      ↔ (la ≤ latTL ∧ lonTL ≤ lo ∧ latBR ≤ la ∧ lo ≤ lonBR)) := by
  simp [fileInBounds, herr, hla, hlo, DVal.le, DVal.ge, and_assoc]

/-- C5 witness: the point (10, 20) lies exactly on the northern edge
of the rectangle with latTL = 10, and the inclusive test admits it. -/
theorem fileInBounds_inclusive_iff_witness :
    (fileInBounds sampleEnv samplePath
        (DVal.fin 10) (DVal.fin 0) (DVal.fin 0) (DVal.fin 180) = true
      ↔ ((10 : ℚ) ≤ 10 ∧ (0 : ℚ) ≤ 20 ∧ (0 : ℚ) ≤ 10 ∧ (20 : ℚ) ≤ 180)) :=
  fileInBounds_inclusive_iff sampleEnv samplePath 10 20 10 0 0 180 rfl
    (by norm_num [getEXIFCoord, sampleEnv, sampleIfd, convertDMS, mkDMS,
      DVal.div, DVal.add, DVal.mul])
    (by norm_num [getEXIFCoord, sampleEnv, sampleIfd, convertDMS, mkDMS,
      DVal.div, DVal.add, DVal.mul])

/-- The error flag of getEXIFCoord is set exactly when decoding fails
entirely or at least one of the four GPS tag lookups fails. -/
theorem getEXIFCoord_error_char (env : ExifEnv) (path : String) :
    ((getEXIFCoord env path).error = true ↔
      env path = none ∨ ∃ ifdArray, env path = some ifdArray ∧
        (tagFailed ifdArray.gpsLat = true ∨ tagFailed ifdArray.gpsLon = true ∨
          tagFailed ifdArray.gpsLatRef = true ∨ tagFailed ifdArray.gpsLonRef = true)) := by
  rcases henv : env path with _ | ifdArray
  · simp [getEXIFCoord, henv]
  rcases hlat : ifdArray.gpsLat with _ | lat
  · simp [getEXIFCoord, tagFailed, henv, hlat]
  by_cases herr1 : lat.error = true
  · simp [getEXIFCoord, tagFailed, henv, hlat, herr1]
  replace herr1 : lat.error = false := by simpa using herr1
  rcases hlon : ifdArray.gpsLon with _ | lon
  · simp [getEXIFCoord, tagFailed, henv, hlat, herr1, hlon]
  by_cases herr2 : lon.error = true
  · simp [getEXIFCoord, tagFailed, henv, hlat, herr1, hlon, herr2]
  replace herr2 : lon.error = false := by simpa using herr2
  rcases hlatd : ifdArray.gpsLatRef with _ | latDir
  · simp [getEXIFCoord, tagFailed, henv, hlat, herr1, hlon, herr2, hlatd]
  by_cases herr3 : latDir.error = true
  · simp [getEXIFCoord, tagFailed, henv, hlat, herr1, hlon, herr2, hlatd, herr3]
  replace herr3 : latDir.error = false := by simpa using herr3
  rcases hlond : ifdArray.gpsLonRef with _ | lonDir
  · simp [getEXIFCoord, tagFailed, henv, hlat, herr1, hlon, herr2, hlatd, herr3, hlond]
  by_cases herr4 : lonDir.error = true
  · simp [getEXIFCoord, tagFailed, henv, hlat, herr1, hlon, herr2, hlatd, herr3, hlond, herr4]
  replace herr4 : lonDir.error = false := by simpa using herr4
  simp [getEXIFCoord, tagFailed, henv, hlat, herr1, hlon, herr2, hlatd, herr3, hlond, herr4]

/-- When getEXIFCoord succeeds, the decode and all four lookups
succeeded, exactly two convertDMS calls were made, and the coordinate
axes are exactly the two per-axis conversion results. -/
theorem getEXIFCoord_success_spec (env : ExifEnv) (path : String)
    (h : (getEXIFCoord env path).error = false) :
    convertDMSCallCount env path = 2 ∧
    ∃ ifdArray lat lon latDir lonDir,
      env path = some ifdArray ∧
      ifdArray.gpsLat = some lat ∧ ifdArray.gpsLon = some lon ∧
      ifdArray.gpsLatRef = some latDir ∧ ifdArray.gpsLonRef = some lonDir ∧
      lat.error = false ∧ lon.error = false ∧ latDir.error = false ∧ lonDir.error = false ∧
      (getEXIFCoord env path).lat = convertDMS lat.numData (latDir.byteData 0) ∧
      (getEXIFCoord env path).lon = convertDMS lon.numData (lonDir.byteData 0) := by
  rcases henv : env path with _ | ifdArray
  · simp [getEXIFCoord, henv] at h
  rcases hlat : ifdArray.gpsLat with _ | lat
  · simp [getEXIFCoord, henv, hlat] at h
  by_cases herr1 : lat.error = true
  · simp [getEXIFCoord, henv, hlat, herr1] at h
  replace herr1 : lat.error = false := by simpa using herr1
  rcases hlon : ifdArray.gpsLon with _ | lon
  · simp [getEXIFCoord, henv, hlat, herr1, hlon] at h
  by_cases herr2 : lon.error = true
  · simp [getEXIFCoord, henv, hlat, herr1, hlon, herr2] at h
  replace herr2 : lon.error = false := by simpa using herr2
  rcases hlatd : ifdArray.gpsLatRef with _ | latDir
  · simp [getEXIFCoord, henv, hlat, herr1, hlon, herr2, hlatd] at h
  by_cases herr3 : latDir.error = true
  · simp [getEXIFCoord, henv, hlat, herr1, hlon, herr2, hlatd, herr3] at h
  replace herr3 : latDir.error = false := by simpa using herr3
  rcases hlond : ifdArray.gpsLonRef with _ | lonDir
  · simp [getEXIFCoord, henv, hlat, herr1, hlon, herr2, hlatd, herr3, hlond] at h
  by_cases herr4 : lonDir.error = true
  · simp [getEXIFCoord, henv, hlat, herr1, hlon, herr2, hlatd, herr3, hlond, herr4] at h
  replace herr4 : lonDir.error = false := by simpa using herr4
  refine ⟨?_, ifdArray, lat, lon, latDir, lonDir, rfl, hlat, hlon, hlatd, hlond,
    herr1, herr2, herr3, herr4, ?_, ?_⟩
  · simp [convertDMSCallCount, tagFailed, henv, hlat, hlon, hlatd, hlond,
      herr1, herr2, herr3, herr4]
  · simp [getEXIFCoord, henv, hlat, hlon, hlatd, hlond, herr1, herr2, herr3, herr4]
  · simp [getEXIFCoord, henv, hlat, hlon, hlatd, hlond, herr1, herr2, herr3, herr4]

/-- C2: getEXIFCoord returns a coordinate with the error flag set iff
decoding fails entirely or at least one of the four GPS tag lookups
is absent or reports a read error; when all four lookups succeed it
invokes convertDMS exactly twice, once per axis, and clears the flag. -/
theorem getEXIFCoord_validity (env : ExifEnv) (path : String) :
    ((getEXIFCoord env path).error = true ↔
      env path = none ∨ ∃ ifdArray, env path = some ifdArray ∧
        (tagFailed ifdArray.gpsLat = true ∨ tagFailed ifdArray.gpsLon = true ∨
          tagFailed ifdArray.gpsLatRef = true ∨ tagFailed ifdArray.gpsLonRef = true)) ∧
    ((getEXIFCoord env path).error = false →
      convertDMSCallCount env path = 2 ∧
      ∃ ifdArray lat lon latDir lonDir,
        env path = some ifdArray ∧
        ifdArray.gpsLat = some lat ∧ ifdArray.gpsLon = some lon ∧
        ifdArray.gpsLatRef = some latDir ∧ ifdArray.gpsLonRef = some lonDir ∧
        lat.error = false ∧ lon.error = false ∧ latDir.error = false ∧ lonDir.error = false ∧
        (getEXIFCoord env path).lat = convertDMS lat.numData (latDir.byteData 0) ∧
        (getEXIFCoord env path).lon = convertDMS lon.numData (lonDir.byteData 0)) :=
  ⟨getEXIFCoord_error_char env path, fun h => getEXIFCoord_success_spec env path h⟩

/-- C2 witness: on a file whose four GPS tags are all present and
well-formed, extraction succeeds and performs exactly two conversions. -/
theorem getEXIFCoord_validity_witness :
    (getEXIFCoord sampleEnv samplePath).error = false ∧
      convertDMSCallCount sampleEnv samplePath = 2 :=
  ⟨rfl, ((getEXIFCoord_validity sampleEnv samplePath).2 rfl).1⟩

/-- C7 counterexample: the Extractor performs no range validation, so
a coordinate with the error flag cleared can lie far outside
[-90, 90] x [-180, 180]: a latitude tag of 1000/1 degrees north is
extracted as latitude 1000. -/
theorem getEXIFCoord_range_counterexample :
    ¬ (∀ (env : ExifEnv) (path : String),
        (getEXIFCoord env path).error = false →
        ∃ la lo : ℚ, (getEXIFCoord env path).lat = DVal.fin la ∧
          (getEXIFCoord env path).lon = DVal.fin lo ∧
          -90 ≤ la ∧ la ≤ 90 ∧ -180 ≤ lo ∧ lo ≤ 180) := by
  intro hclaim
  rcases hclaim outOfRangeEnv samplePath rfl with ⟨la, lo, hla, hlo, hla1, hla2, hlo1, hlo2⟩
  have hcomp : (getEXIFCoord outOfRangeEnv samplePath).lat = DVal.fin 1000 := by
    norm_num [getEXIFCoord, outOfRangeEnv, outOfRangeIfd, convertDMS, mkDMS,
      DVal.div, DVal.add, DVal.mul]
  rw [hcomp] at hla
  injection hla with heq
  rw [← heq] at hla2
  norm_num at hla2

/-- C7 (amended): the Extractor validates no ranges: a coordinate it
returns with the error flag cleared carries exactly the raw
convertDMS results of the two axes, so its latitude and longitude lie
in [-90, 90] and [-180, 180] only when those conversion results do. -/
theorem getEXIFCoord_no_range_validation (env : ExifEnv) (path : String)
    (h : (getEXIFCoord env path).error = false) :
    ∃ ifdArray lat lon latDir lonDir,
      env path = some ifdArray ∧
      ifdArray.gpsLat = some lat ∧ ifdArray.gpsLon = some lon ∧
      ifdArray.gpsLatRef = some latDir ∧ ifdArray.gpsLonRef = some lonDir ∧
      (getEXIFCoord env path).lat = convertDMS lat.numData (latDir.byteData 0) ∧
      (getEXIFCoord env path).lon = convertDMS lon.numData (lonDir.byteData 0) := by
  obtain ⟨-, ifdArray, lat, lon, latDir, lonDir, henv, hlat, hlon, hlatd, hlond,
    -, -, -, -, hcla, hclo⟩ := getEXIFCoord_success_spec env path h
  exact ⟨ifdArray, lat, lon, latDir, lonDir, henv, hlat, hlon, hlatd, hlond, hcla, hclo⟩

/-- C7 (amended) witness: the pass-through holds at the out-of-range
environment. -/
theorem getEXIFCoord_no_range_validation_witness :
    ∃ ifdArray lat lon latDir lonDir,
      outOfRangeEnv samplePath = some ifdArray ∧
      ifdArray.gpsLat = some lat ∧ ifdArray.gpsLon = some lon ∧
      ifdArray.gpsLatRef = some latDir ∧ ifdArray.gpsLonRef = some lonDir ∧
      (getEXIFCoord outOfRangeEnv samplePath).lat = convertDMS lat.numData (latDir.byteData 0) ∧
      (getEXIFCoord outOfRangeEnv samplePath).lon = convertDMS lon.numData (lonDir.byteData 0) :=
  getEXIFCoord_no_range_validation outOfRangeEnv samplePath rfl

/-- C1: the number of copied-file reports boundDir emits equals the
exact count of enumerated regular files that pass the bounds test. -/
theorem boundDir_copiedCount (env : ExifEnv) (listing : List DirEnt)
    (srcPath destPath : String) (latTL lonTL latBR lonBR : DVal) :
    (boundDir env listing srcPath destPath latTL lonTL latBR lonBR).length =
      listing.countP (fun fileEnt =>
        decide (fileEnt.d_type = DT_REG) &&
          fileInBounds env (srcPath ++ "/" ++ fileEnt.d_name) latTL lonTL latBR lonBR) := by
  induction listing with
  | nil => rfl
  | cons fileEnt rest ih =>
    by_cases hreg : fileEnt.d_type = DT_REG
    · by_cases hin :
        fileInBounds env (srcPath ++ "/" ++ fileEnt.d_name) latTL lonTL latBR lonBR = true
      · simp [boundDir, List.countP_cons, hreg, hin, ih]
      · simp [boundDir, List.countP_cons, hreg, hin, ih]
    · simp [boundDir, List.countP_cons, hreg, ih]

/-- C8: when the four parsed coordinates form a degenerate rectangle
(latTL <= latBR or lonTL >= lonBR), mainRun terminates with exit code
1 and the deformed-rectangle diagnostic, whatever the EXIF decoder
and directory contents are: the Driver is never invoked and no file
is touched. -/
theorem mainRun_degenerate_rectangle
    (isDir : String → Bool) (parseDouble : String → Option ℚ)
    (argv : List String) (latTL lonTL latBR lonBR : ℚ)
    (hlen : 7 ≤ argv.length)
    (hsrc : isDir (argv.getD 1 "") = true) (hsrc2 : (argv.getD 1 "").back ≠ '/')
    (hdest : isDir (argv.getD 2 "") = true) (hdest2 : (argv.getD 2 "").back ≠ '/')
    (h3 : parseParam parseDouble argv 3 = Except.ok latTL)
    (h4 : parseParam parseDouble argv 4 = Except.ok lonTL)
    (h5 : parseParam parseDouble argv 5 = Except.ok latBR)
    (h6 : parseParam parseDouble argv 6 = Except.ok lonBR)
    (hdeg : latTL ≤ latBR ∨ lonTL ≥ lonBR) :
    ∀ (exif : ExifEnv) (dirListing : String → List DirEnt),
      mainRun { exif := exif, dirListing := dirListing, isDir := isDir,
                parseDouble := parseDouble } argv
        = RunResult.fatal msgDeformed := by
  intro exif dirListing
  have hl2 : ¬ argv.length < 2 := by omega
  have hl3 : ¬ argv.length < 3 := by omega
  have hl7 : ¬ argv.length < 7 := by omega
  simp only [List.getD, List.get?_eq_getElem?] at hsrc hsrc2 hdest hdest2
  simp [mainRun, List.getD, hl2, hl3, hl7, hsrc, hsrc2, hdest, hdest2, h3, h4, h5, h6, hdeg]

/-- C8 witness: scenario 3, bound srcdir destdir 10 10 20 5 (top-left
south of bottom-right), is rejected with the deformed-rectangle
diagnostic for a decoder and listing it never consults. -/
theorem mainRun_degenerate_rectangle_witness :
    mainRun { exif := noExifEnv, dirListing := fun _ => [], isDir := fun _ => true,
              parseDouble := sampleParse } sampleArgv
      = RunResult.fatal msgDeformed :=
  mainRun_degenerate_rectangle (fun _ => true) sampleParse sampleArgv 10 10 20 5
    (by decide) rfl (by decide) rfl (by decide)
    rfl rfl rfl rfl
    (by norm_num) noExifEnv (fun _ => [])
